import Mathlib

/-!
Verification development for the music-distribution MCP repository.

The definitions below are a shallow embedding of three parts of the source:
  * src/suno-client.ts      (generation backend client: generateMusic,
                             getGenerationDetails, waitForCompletion)
  * web/api/chat.ts         (the orchestration loop of the web chat handler)
  * src/index.ts            (the release_ai_track composite workflow and its
                             schema validation)

External network calls are modelled by oracles: a scripted list of poll
outcomes for the polling loop, a scripted list of engine responses for the
chat loop, and a record of per-call outcomes for the composite workflow.
Wall-clock time in the polling loop is modelled by the sleep amounts only
(the duration of the network calls themselves is abstracted to zero, as is
the 5 second CDN cooldown before a successful return).
-/

namespace MusicMCP

/-- JavaScript truthiness of an optional string: undefined and the empty
string are falsy, every other string is truthy. -/
def jsTruthy : Option String → Bool
  | none => false
  | some s => s ≠ ""

/-- JavaScript template interpolation of a possibly undefined string. -/
def jsShowOpt : Option String → String
  | none => "undefined"
  | some s => s

/-- JavaScript disjunction a || b on an optional string and a string:
yields the first operand when it is truthy, the second otherwise. -/
def jsOrElse (a : Option String) (b : String) : String :=
  if jsTruthy a then a.getD "" else b

/-- JavaScript toLowerCase, modelled over the character list. On the ASCII
names involved this agrees with the byte-level String.toLower. -/
def jsToLower (s : String) : String :=
  String.mk (s.data.map Char.toLower)

namespace Suno

/-- Argument record of SunoClient.generateMusic (GenerateMusicRequest in
suno-client.ts). Optional fields are Option valued. -/
structure GenerateMusicRequest where
  prompt : String
  style : Option String
  instrumental : Option Bool
  lyrics : Option String
  title : Option String
deriving DecidableEq, Repr

/-- Request body that generateMusic posts to the generation endpoint.
The model field is always the literal V4_5; style and title are only
present in custom mode. -/
structure SunoRequestBody where
  customMode : Bool
  instrumental : Bool
  prompt : String
  style : Option String
  title : Option String
  model : String
deriving DecidableEq, Repr

/-- Body construction of SunoClient.generateMusic: custom mode is chosen
exactly when the lyrics argument is truthy; in custom mode the lyrics are
sent in the prompt field and instrumental is hardwired to false; in simple
mode the caller prompt and instrumental flag are used. -/
def generateMusicBody (params : GenerateMusicRequest) : SunoRequestBody :=
  if jsTruthy params.lyrics then
    { customMode := true
      instrumental := false
      prompt := params.lyrics.getD ""
      style := some (jsOrElse params.style "pop")
      title := some (jsOrElse params.title "Untitled")
      model := "V4_5" }
  else
    { customMode := false
      instrumental := params.instrumental.getD false
      prompt := params.prompt
      style := none
      title := none
      model := "V4_5" }

/-- Result of a submitted generation job (GenerationTask). -/
structure GenerationTask where
  taskId : String
  status : String
deriving DecidableEq, Repr

/-- One candidate track in a poll response (SunoTrack). The audio URLs are
Option valued because the backend may omit them; the empty string is also
treated as unusable by the JavaScript truthiness checks. -/
structure SunoTrack where
  id : String
  title : String
  audioUrl : Option String
  streamAudioUrl : Option String
  imageUrl : Option String
  duration : Option Nat
  tags : Option String
deriving DecidableEq, Repr

/-- Parsed poll response (GenerationDetails): tracks is none when the
response carried no tracks. -/
structure GenerationDetails where
  taskId : String
  status : String
  tracks : Option (List SunoTrack)
  error : Option String
deriving DecidableEq, Repr

/-- The failure statuses recognized by waitForCompletion. -/
def failureStatuses : List String :=
  ["CREATE_TASK_FAILED", "GENERATE_AUDIO_FAILED", "CALLBACK_EXCEPTION",
   "SENSITIVE_WORD_ERROR"]

/-- Check of waitForCompletion that some track carries a truthy audio URL
(primary or streaming). -/
def hasValidAudio (tracks : List SunoTrack) : Bool :=
  tracks.any fun t => jsTruthy t.audioUrl || jsTruthy t.streamAudioUrl

/-- Body of one iteration of the waitForCompletion try block, after
getGenerationDetails has returned successfully. The Except layer is the
JavaScript exception: the backend-failure branch throws from INSIDE the
try block, so its error lands in the same catch as a network error.
Result ok (some d) means return d, ok none means fall through and poll
again. -/
def pollBody (details : GenerationDetails) : Except String (Option GenerationDetails) :=
  if details.status = "SUCCESS" then
    match details.tracks with
    | some tracks =>
      if tracks.length > 0 then
        if hasValidAudio tracks then .ok (some details)
        else .ok none
      else .ok none
    | none => .ok none
  else if failureStatuses.contains details.status then
    .error ("Music generation failed: " ++ jsOrElse details.error details.status)
  else
    .ok none

/-- One scripted outcome of a call to getGenerationDetails: either the call
itself threw (network level), or it returned a parsed response. -/
inductive PollOutcome where
  | netError (msg : String)
  | report (details : GenerationDetails)
deriving DecidableEq, Repr

/-- Result of waitForCompletion. completed is the successful return;
tooManyErrors is the consecutive-error escalation; timedOut is the throw
after maxWaitMs; outOfTrace is a modelling artifact meaning the scripted
outcomes ran out while the loop was still polling. -/
inductive WaitResult where
  | completed (details : GenerationDetails)
  | tooManyErrors (msg : String)
  | timedOut (maxWaitMs : Nat)
  | outOfTrace
deriving DecidableEq, Repr

/-- Error tolerance constant maxConsecutiveErrors of waitForCompletion. -/
def maxConsecutiveErrors : Nat := 10

/-- The polling loop of waitForCompletion over a scripted outcome list.
elapsedMs plays Date.now() - startTime, advanced by pollIntervalMs per
iteration. On a report the consecutive-error counter is first reset to 0
(the code resets right after getGenerationDetails returns), so a throw
from the status checks restarts the count at 1. -/
def waitGo (maxWaitMs pollIntervalMs : Nat) :
    List PollOutcome → Nat → Nat → WaitResult
  | [], elapsedMs, _ =>
    if elapsedMs < maxWaitMs then .outOfTrace else .timedOut maxWaitMs
  | .netError msg :: rest, elapsedMs, consecutiveErrors =>
    if elapsedMs < maxWaitMs then
      if maxConsecutiveErrors ≤ consecutiveErrors + 1 then
        .tooManyErrors ("Too many consecutive polling errors: " ++ msg)
      else
        waitGo maxWaitMs pollIntervalMs rest (elapsedMs + pollIntervalMs)
          (consecutiveErrors + 1)
    else .timedOut maxWaitMs
  | .report details :: rest, elapsedMs, _ =>
    if elapsedMs < maxWaitMs then
      match pollBody details with
      | .ok (some d) => .completed d
      | .ok none =>
        waitGo maxWaitMs pollIntervalMs rest (elapsedMs + pollIntervalMs) 0
      | .error msg =>
        if maxConsecutiveErrors ≤ 0 + 1 then
          .tooManyErrors ("Too many consecutive polling errors: " ++ msg)
        else
          waitGo maxWaitMs pollIntervalMs rest (elapsedMs + pollIntervalMs) (0 + 1)
    else .timedOut maxWaitMs

/-- waitForCompletion entry point: starts with zero elapsed time and zero
consecutive errors. Source defaults are maxWaitMs 300000 and
pollIntervalMs 8000. -/
def waitForCompletion (outcomes : List PollOutcome)
    (maxWaitMs pollIntervalMs : Nat) : WaitResult :=
  waitGo maxWaitMs pollIntervalMs outcomes 0 0

end Suno

namespace Chat

/-- Role of an Anthropic message. -/
inductive Role where
  | user
  | assistant
deriving DecidableEq, Repr

/-- A content block of an engine response: plain text or a tool-use
request. The raw argument mapping of the tool use is abstracted to a
string rendering. -/
inductive ContentBlock where
  | text (t : String)
  | toolUse (blockId : String) (toolName : String) (input : String)
deriving DecidableEq, Repr

/-- One tool_result block sent back to the engine. The content string
stands for the JSON serialization of either the tool result or the error
object. -/
structure ToolResultBlock where
  toolUseId : String
  content : String
  isError : Bool
deriving DecidableEq, Repr

/-- Content of one message passed to the engine: an incoming client
message, an assistant turn (the block list of a previous response), or a
user turn carrying tool results. -/
inductive MessageContent where
  | fromClient (s : String)
  | assistantBlocks (blocks : List ContentBlock)
  | toolResults (results : List ToolResultBlock)
deriving DecidableEq, Repr

/-- One message of a request to the engine. -/
structure Message where
  role : Role
  content : MessageContent
deriving DecidableEq, Repr

/-- One scripted response of the reasoning engine: its stop reason and its
content blocks. The loop continues exactly while stopReason is the string
tool_use. -/
structure EngineResponse where
  stopReason : String
  content : List ContentBlock
deriving DecidableEq, Repr

/-- Outcome of one handler run over the scripted responses. finalText is
the non tool_use exit of the loop (the joined text blocks of the last
response); awaitingEngine is a modelling artifact meaning the script ran
out while the loop had just issued another engine request. The handler
has no other way out of the loop: in particular it has no iteration-cap
exit. -/
inductive ChatResult where
  | finalText (t : String)
  | awaitingEngine
deriving DecidableEq, Repr

/-- Tool execution over the tool_use blocks of a response, in order: each
block is run through the API oracle (toolName and input to either a
result string or a thrown error message) and becomes one tool_result
block, errors included (is_error true). Text blocks contribute nothing. -/
def toolResultsFor (apiOutcome : String → String → Except String String) :
    List ContentBlock → List ToolResultBlock
  | [] => []
  | .text _ :: rest => toolResultsFor apiOutcome rest
  | .toolUse blockId toolName input :: rest =>
    (match apiOutcome toolName input with
     | .ok r => { toolUseId := blockId, content := r, isError := false }
     | .error e => { toolUseId := blockId, content := "error: " ++ e, isError := true })
    :: toolResultsFor apiOutcome rest

/-- Extraction of the final answer: the text blocks of a response joined
with newlines. -/
def extractText (blocks : List ContentBlock) : String :=
  String.intercalate "\n" (blocks.filterMap fun b =>
    match b with
    | .text t => some t
    | .toolUse _ _ _ => none)

/-- The while loop of the chat handler, given the current response and the
remaining scripted responses. On a tool_use response the next request is
built as anthropicMessages (the ORIGINAL client history, never extended
between iterations) plus the current assistant turn plus one user turn of
tool results, exactly as in the source. The first component collects every
request message list passed to the engine from this point on. -/
def chatGo (apiOutcome : String → String → Except String String)
    (anthropicMessages : List Message) :
    EngineResponse → List EngineResponse → List (List Message) × ChatResult
  | response, rest =>
    if response.stopReason = "tool_use" then
      let nextMessages := anthropicMessages ++
        [⟨.assistant, .assistantBlocks response.content⟩,
         ⟨.user, .toolResults (toolResultsFor apiOutcome response.content)⟩]
      match rest with
      | [] => ([nextMessages], .awaitingEngine)
      | r :: rs =>
        let next := chatGo apiOutcome anthropicMessages r rs
        (nextMessages :: next.1, next.2)
    else ([], .finalText (extractText response.content))

/-- Whole handler run: the first engine request carries the client
messages as mapped from the request body; then the loop runs over the
scripted responses. Returns every request sent to the engine and the
outcome. -/
def handlerRun (apiOutcome : String → String → Except String String)
    (messages : List Message) :
    List EngineResponse → List (List Message) × ChatResult
  | [] => ([messages], .awaitingEngine)
  | r :: rs =>
    let next := chatGo apiOutcome messages r rs
    (messages :: next.1, next.2)

end Chat

namespace Release

/-- One artist record as returned by the distribution backend; the name is
Option valued because the source guards it with optional chaining. -/
structure Artist where
  id : Nat
  name : Option String
deriving DecidableEq, Repr

/-- Case-insensitive name match used by the artist dedupe lookup:
a.name?.toLowerCase() === artistName.toLowerCase(). An absent name never
matches. -/
def nameMatches (name : Option String) (artistName : String) : Bool :=
  match name with
  | some n => jsToLower n = jsToLower artistName
  | none => false

/-- Validated arguments of the release_ai_track tool
(releaseAiTrackSchema). -/
structure ReleaseAiTrackArgs where
  prompt : String
  artistName : String
  trackTitle : String
  releaseDate : String
  dsps : Option (List String)
  instrumental : Option Bool
  lyrics : Option String
  style : Option String
  artworkPrompt : Option String
deriving DecidableEq, Repr

/-- One external call issued by the composite workflow, with the arguments
the claims need. getStoreId is modelled as a pure lookup (its internal
store-table fetch catches its own errors and yields null), so it does not
appear in the trace. -/
inductive StepCall where
  | generateMusic (req : Suno.GenerateMusicRequest)
  | waitForCompletion (taskId : String)
  | getArtists
  | createArtist (artistName : String)
  | createWallet (artistName : String)
  | createRelease (artistIri : String)
  | createTrackWithAudio (releaseId : String) (audioUrl : Option String)
  | generateArtwork (releaseId : String) (artworkPrompt : String)
  | submitToStores (releaseId : String) (storeIds : List String)
deriving DecidableEq, Repr

/-- Scripted outcomes of the external calls the workflow may issue. An
Except error stands for a thrown exception, which the workflow-wide catch
turns into a failure result. storeLookup models getStoreId, which never
throws. -/
structure ReleaseEnv where
  generateMusicResult : Except String Suno.GenerationTask
  waitResult : Except String Suno.GenerationDetails
  artistsResult : Except String (List Artist)
  createArtistResult : Except String Artist
  cdpConfigured : Bool
  createWalletResult : Except String (Option String)
  createReleaseResult : Except String Nat
  createTrackResult : Except String (Option Nat)
  generateArtworkResult : Except String Unit
  storeLookup : String → Option String
  submitResult : Except String Unit

/-- Summary object of a successful workflow run. -/
structure WorkflowSummary where
  artistName : String
  artistId : Nat
  artistWallet : Option String
  trackTitle : String
  releaseId : Nat
  trackId : Option Nat
  releaseDate : String
  dspsSubmitted : List String
deriving DecidableEq, Repr

/-- Result object of the workflow: the success flag and steps list of the
returned JSON, the summary (success path only) and the error message
(catch path only). -/
structure WorkflowResult where
  success : Bool
  steps : List String
  summary : Option WorkflowSummary
  error : Option String
deriving DecidableEq, Repr

/-- The catch clause of release_ai_track: push the error step and return
success false with the error message. -/
def catchResult (steps : List String) (msg : String) : WorkflowResult :=
  { success := false
    steps := steps ++ ["❌ Error: " ++ msg]
    summary := none
    error := some msg }

/-- sunoResult.tracks?.[0] of the source. -/
def firstTrack : Option (List Suno.SunoTrack) → Option Suno.SunoTrack
  | none => none
  | some tracks => tracks.head?

/-- Store id resolution loop of step 6: look every dsp up and keep the
truthy ids. -/
def resolveStoreIds (storeLookup : String → Option String)
    (dsps : List String) : List String :=
  dsps.filterMap fun dsp =>
    match storeLookup dsp with
    | some s => if s = "" then none else some s
    | none => none

/-- Steps 5b and 6 of release_ai_track (artwork generation and store
submission) followed by the success return. Artwork failure is caught by
its own inner try and only adds a warning step; submission is NOT guarded
by an inner try, so a thrown submission error reaches the workflow-wide
catch. -/
def finishRelease (v : ReleaseAiTrackArgs) (env : ReleaseEnv)
    (artistId : Nat) (artistWallet : Option String) (releaseId : Nat)
    (trackId : Option Nat) (steps : List String) (calls : List StepCall) :
    WorkflowResult × List StepCall :=
  let afterArtwork : List String × List StepCall :=
    if jsTruthy v.artworkPrompt then
      let p := v.artworkPrompt.getD ""
      match env.generateArtworkResult with
      | .ok _ =>
        (steps ++ ["🎨 Generating AI artwork...", "   ✅ Artwork generated successfully"],
         calls ++ [.generateArtwork (toString releaseId) p])
      | .error msg =>
        (steps ++ ["🎨 Generating AI artwork...", "   ⚠️ Artwork generation failed: " ++ msg],
         calls ++ [.generateArtwork (toString releaseId) p])
    else (steps, calls)
  let steps5 := afterArtwork.1
  let calls5 := afterArtwork.2
  let successResult : List String → WorkflowResult := fun doneSteps =>
    { success := true
      steps := doneSteps ++ ["", "🎉 Release setup complete!"]
      summary := some
        { artistName := v.artistName
          artistId := artistId
          artistWallet := artistWallet
          trackTitle := v.trackTitle
          releaseId := releaseId
          trackId := trackId
          releaseDate := v.releaseDate
          dspsSubmitted := v.dsps.getD [] }
      error := none }
  match v.dsps with
  | some dsps =>
    if dsps.length > 0 then
      let steps6 := steps5 ++
        ["📡 Submitting to " ++ toString dsps.length ++ " DSPs: " ++
         String.intercalate ", " dsps ++ "..."]
      let storeIds := resolveStoreIds env.storeLookup dsps
      if storeIds.length > 0 then
        match env.submitResult with
        | .ok _ =>
          (successResult (steps6 ++ ["   ✅ Submitted to stores"]),
           calls5 ++ [.submitToStores (toString releaseId) storeIds])
        | .error msg =>
          (catchResult steps6 msg,
           calls5 ++ [.submitToStores (toString releaseId) storeIds])
      else
        (successResult (steps6 ++ ["   ⚠️ Could not resolve store IDs"]), calls5)
    else (successResult steps5, calls5)
  | none => (successResult steps5, calls5)

/-- Steps 4 and 5 of release_ai_track (release creation, track creation
with audio), entered once the artist id and wallet are settled. Every
thrown error here reaches the workflow-wide catch. -/
def afterWallet (v : ReleaseAiTrackArgs) (env : ReleaseEnv) (artistId : Nat)
    (artistWallet : Option String) (generatedTrack : Suno.SunoTrack)
    (steps : List String) (calls : List StepCall) :
    WorkflowResult × List StepCall :=
  let artistIri := "/api/me/artists/" ++ toString artistId
  let steps3 := steps ++
    ["💿 Creating release \"" ++ v.trackTitle ++ "\" for " ++ v.releaseDate ++ "..."]
  let calls3 := calls ++ [.createRelease artistIri]
  match env.createReleaseResult with
  | .error msg => (catchResult steps3 msg, calls3)
  | .ok releaseId =>
    let steps4 := steps3 ++ ["   ✅ Release ID: " ++ toString releaseId,
                             "🎤 Creating track with audio..."]
    let calls4 := calls3 ++
      [.createTrackWithAudio (toString releaseId) generatedTrack.audioUrl]
    match env.createTrackResult with
    | .error msg => (catchResult steps4 msg, calls4)
    | .ok trackId =>
      let steps5 := steps4 ++
        ["   ✅ Track created with audio (ID: " ++
         (match trackId with | some n => toString n | none => "undefined") ++ ")"]
      finishRelease v env artistId artistWallet releaseId trackId steps5 calls4

/-- Step 3b of release_ai_track (wallet setup when the wallet service is
configured), entered once the artist id is resolved. A thrown wallet error
reaches the workflow-wide catch. -/
def afterArtist (v : ReleaseAiTrackArgs) (env : ReleaseEnv) (artistId : Nat)
    (generatedTrack : Suno.SunoTrack) (steps : List String)
    (calls : List StepCall) : WorkflowResult × List StepCall :=
  if env.cdpConfigured then
    let stepsW := steps ++ ["💰 Setting up royalty wallet..."]
    let callsW := calls ++ [.createWallet v.artistName]
    match env.createWalletResult with
    | .error msg => (catchResult stepsW msg, callsW)
    | .ok (some addr) =>
      afterWallet v env artistId (some addr) generatedTrack
        (stepsW ++ ["   ✅ Wallet: " ++ addr.take 6 ++ "..." ++
                    addr.drop (addr.length - 4)])
        callsW
    | .ok none =>
      afterWallet v env artistId none generatedTrack
        (stepsW ++ ["   ⚠️ Wallet creation skipped"]) callsW
  else afterWallet v env artistId none generatedTrack steps calls

/-- The release_ai_track composite workflow over validated arguments:
steps 1 to 3 (music generation, completion wait, artist resolve or
create), then afterArtist. Returns the result object and the trace of
external calls issued, in order. -/
def runReleaseAiTrack (v : ReleaseAiTrackArgs) (env : ReleaseEnv) :
    WorkflowResult × List StepCall :=
  let steps0 : List String :=
    [if jsTruthy v.lyrics then "🎵 Generating music with your custom lyrics..."
     else "🎵 Generating music with Suno AI..."]
  let genReq : Suno.GenerateMusicRequest :=
    { prompt := v.prompt
      style := v.style
      instrumental := v.instrumental
      lyrics := v.lyrics
      title := some v.trackTitle }
  match env.generateMusicResult with
  | .error msg => (catchResult steps0 msg, [.generateMusic genReq])
  | .ok task =>
    let steps1 := steps0 ++ ["   Task ID: " ++ task.taskId,
                             "⏳ Waiting for music generation to complete..."]
    let calls1 : List StepCall :=
      [.generateMusic genReq, .waitForCompletion task.taskId]
    match env.waitResult with
    | .error msg => (catchResult steps1 msg, calls1)
    | .ok sunoResult =>
      match firstTrack sunoResult.tracks with
      | none => (catchResult steps1 "No tracks were generated", calls1)
      | some generatedTrack =>
        let steps2 := steps1 ++
          ["   ✅ Generated: \"" ++ generatedTrack.title ++ "\" (" ++
           toString (generatedTrack.duration.getD 0) ++ "s)",
           "   Audio URL: " ++ jsShowOpt generatedTrack.audioUrl,
           "👤 Looking for artist \"" ++ v.artistName ++ "\" on Ditto..."]
        let calls2 := calls1 ++ [.getArtists]
        match env.artistsResult with
        | .error msg => (catchResult steps2 msg, calls2)
        | .ok artistList =>
          match artistList.find? (fun a => nameMatches a.name v.artistName) with
          | some existingArtist =>
            afterArtist v env existingArtist.id generatedTrack
              (steps2 ++ ["   ✅ Found existing artist (ID: " ++
                          toString existingArtist.id ++ ")"])
              calls2
          | none =>
            match env.createArtistResult with
            | .error msg =>
              (catchResult steps2 msg, calls2 ++ [.createArtist v.artistName])
            | .ok artistResult =>
              afterArtist v env artistResult.id generatedTrack
                (steps2 ++ ["   ✅ Created new artist (ID: " ++
                            toString artistResult.id ++ ")"])
                (calls2 ++ [.createArtist v.artistName])

/-- A raw JSON argument value, as far as the schema checks inspect it. -/
inductive Json where
  | str (s : String)
  | num (n : Int)
  | boolVal (b : Bool)
  | arr (xs : List Json)
  | obj (fields : List (String × Json))
  | nullVal

/-- A raw JSON argument object, as handed to schema validation: an ordered
field list. Lookup takes the first binding, and unknown fields are ignored
exactly as by a non-strict zod object schema. -/
def JsonObject := List (String × Json)

/-- Property access on a raw argument object. -/
def getField (args : JsonObject) (field : String) : Option Json :=
  (args.find? fun p => p.1 = field).map fun p => p.2

/-- The dsp enumeration shared by the submit, earnings, streams and
release_ai_track schemas. -/
def allowedDsps : List String :=
  ["spotify", "apple_music", "amazon_music", "youtube_music", "deezer",
   "tidal", "pandora", "soundcloud", "tiktok", "instagram"]

/-- z.string(): required string field. -/
def requireString (field : String) : Option Json → Except String String
  | some (.str s) => .ok s
  | some _ => .error ("Expected string at " ++ field)
  | none => .error ("Required at " ++ field)

/-- z.string().optional(). -/
def optionalString (field : String) : Option Json → Except String (Option String)
  | none => .ok none
  | some (.str s) => .ok (some s)
  | some _ => .error ("Expected string at " ++ field)

/-- z.boolean(): required boolean field. -/
def requireBool (field : String) : Option Json → Except String Bool
  | some (.boolVal b) => .ok b
  | some _ => .error ("Expected boolean at " ++ field)
  | none => .error ("Required at " ++ field)

/-- z.boolean().optional(). -/
def optionalBool (field : String) : Option Json → Except String (Option Bool)
  | none => .ok none
  | some (.boolVal b) => .ok (some b)
  | some _ => .error ("Expected boolean at " ++ field)

/-- z.number().optional(). JSON numerals are modelled as integers. -/
def optionalNumber (field : String) : Option Json → Except String (Option Int)
  | none => .ok none
  | some (.num n) => .ok (some n)
  | some _ => .error ("Expected number at " ++ field)

/-- z.number().min(0).max(100): the percentage field of a split entry. -/
def requirePercentage (field : String) : Option Json → Except String Int
  | some (.num n) =>
    if n < 0 ∨ 100 < n then .error ("Out of range at " ++ field) else .ok n
  | some _ => .error ("Expected number at " ++ field)
  | none => .error ("Required at " ++ field)

/-- z.string().email(): the zod email format check is abstracted to the
string containing an @ sign (tested over the character list); the failure
handling under test is independent of the exact format predicate. -/
def requireEmail (field : String) : Option Json → Except String String
  | some (.str s) =>
    if s.data.contains '@' then .ok s else .error ("Invalid email at " ++ field)
  | some _ => .error ("Expected string at " ++ field)
  | none => .error ("Required at " ++ field)

/-- One element of an array of z.string(). -/
def parsePlainString : Json → Except String String
  | .str s => .ok s
  | _ => .error "Expected string in array"

/-- z.array(z.string()).optional(): the genres field. -/
def optionalStringArray (field : String) :
    Option Json → Except String (Option (List String))
  | none => .ok none
  | some (.arr xs) => do
    let ss ← xs.mapM parsePlainString
    .ok (some ss)
  | some _ => .error ("Expected array at " ++ field)

/-- One element of the dsps array: a string within the allowed set. -/
def parseDsp : Json → Except String String
  | .str s => if allowedDsps.contains s then .ok s else .error "Invalid enum value"
  | _ => .error "Expected string in dsps"

/-- z.array(z.enum(...)): required dsps array (submit_release). -/
def requireDsps (field : String) : Option Json → Except String (List String)
  | some (.arr xs) => xs.mapM parseDsp
  | some _ => .error ("Expected array at " ++ field)
  | none => .error ("Required at " ++ field)

/-- z.array(z.enum(...)).optional(): optional dsps array. -/
def optionalDsps : Option Json → Except String (Option (List String))
  | none => .ok none
  | some (.arr xs) => do
    let ds ← xs.mapM parseDsp
    .ok (some ds)
  | some _ => .error "Expected array at dsps"

/-- z.enum(...).optional(): the dsp filter of the earnings and streams
query schemas. -/
def optionalDspEnum (field : String) : Option Json → Except String (Option String)
  | none => .ok none
  | some (.str s) =>
    if allowedDsps.contains s then .ok (some s)
    else .error ("Invalid enum value at " ++ field)
  | some _ => .error ("Expected string at " ++ field)

/-- Validated createArtistSchema arguments. -/
structure CreateArtistArgs where
  name : String
  genres : Option (List String)
deriving DecidableEq, Repr

/-- Validated uploadTrackSchema arguments. -/
structure UploadTrackArgs where
  title : String
  releaseId : String
  artistId : String
  isrc : Option String
  explicit : Bool
  language : String
  trackNumber : Option Int
  audioUrl : Option String
deriving DecidableEq, Repr

/-- Validated createReleaseSchema arguments. -/
structure CreateReleaseArgs where
  title : String
  artistId : String
  releaseDate : String
  upc : Option String
  copyrightHolder : Option String
  copyrightYear : Option Int
deriving DecidableEq, Repr

/-- Validated submitReleaseSchema arguments. -/
structure SubmitReleaseArgs where
  releaseId : String
  dsps : List String
deriving DecidableEq, Repr

/-- Validated getReleaseStatusSchema arguments. -/
structure GetReleaseStatusArgs where
  releaseId : String
deriving DecidableEq, Repr

/-- Validated earningsQuerySchema or streamsQuerySchema arguments (the two
schemas are field-for-field identical in the source). -/
structure AnalyticsQueryArgs where
  releaseId : Option String
  trackId : Option String
  startDate : Option String
  endDate : Option String
  dsp : Option String
deriving DecidableEq, Repr

/-- One validated element of the splits array of setSplitsSchema. -/
structure SplitEntry where
  collaboratorEmail : String
  collaboratorName : String
  percentage : Int
  role : String
deriving DecidableEq, Repr

/-- Validated setSplitsSchema arguments. -/
structure SetSplitsArgs where
  releaseId : String
  splits : List SplitEntry
deriving DecidableEq, Repr

/-- Validated uploadArtworkSchema arguments. -/
structure UploadArtworkArgs where
  releaseId : String
  imageUrl : String
deriving DecidableEq, Repr

/-- Validated generateArtworkSchema arguments. -/
structure GenerateArtworkArgs where
  releaseId : String
  prompt : String
deriving DecidableEq, Repr

/-- Validated getMyWalletSchema or getMyBalanceSchema arguments (both
schemas require exactly artistName). -/
structure ArtistNameArgs where
  artistName : String
deriving DecidableEq, Repr

/-- createArtistSchema.parse. A thrown ZodError is the error case; zod
error aggregation is abstracted to the first failing field throughout. -/
def parseCreateArtist (args : JsonObject) : Except String CreateArtistArgs := do
  let name ← requireString "name" (getField args "name")
  let genres ← optionalStringArray "genres" (getField args "genres")
  .ok { name := name, genres := genres }

/-- uploadTrackSchema.parse. -/
def parseUploadTrack (args : JsonObject) : Except String UploadTrackArgs := do
  let title ← requireString "title" (getField args "title")
  let releaseId ← requireString "releaseId" (getField args "releaseId")
  let artistId ← requireString "artistId" (getField args "artistId")
  let isrc ← optionalString "isrc" (getField args "isrc")
  let explicit ← requireBool "explicit" (getField args "explicit")
  let language ← requireString "language" (getField args "language")
  let trackNumber ← optionalNumber "trackNumber" (getField args "trackNumber")
  let audioUrl ← optionalString "audioUrl" (getField args "audioUrl")
  .ok { title := title, releaseId := releaseId, artistId := artistId,
        isrc := isrc, explicit := explicit, language := language,
        trackNumber := trackNumber, audioUrl := audioUrl }

/-- createReleaseSchema.parse. -/
def parseCreateRelease (args : JsonObject) : Except String CreateReleaseArgs := do
  let title ← requireString "title" (getField args "title")
  let artistId ← requireString "artistId" (getField args "artistId")
  let releaseDate ← requireString "releaseDate" (getField args "releaseDate")
  let upc ← optionalString "upc" (getField args "upc")
  let copyrightHolder ← optionalString "copyrightHolder" (getField args "copyrightHolder")
  let copyrightYear ← optionalNumber "copyrightYear" (getField args "copyrightYear")
  .ok { title := title, artistId := artistId, releaseDate := releaseDate,
        upc := upc, copyrightHolder := copyrightHolder,
        copyrightYear := copyrightYear }

/-- submitReleaseSchema.parse. -/
def parseSubmitRelease (args : JsonObject) : Except String SubmitReleaseArgs := do
  let releaseId ← requireString "releaseId" (getField args "releaseId")
  let dsps ← requireDsps "dsps" (getField args "dsps")
  .ok { releaseId := releaseId, dsps := dsps }

/-- getReleaseStatusSchema.parse. -/
def parseGetReleaseStatus (args : JsonObject) :
    Except String GetReleaseStatusArgs := do
  let releaseId ← requireString "releaseId" (getField args "releaseId")
  .ok { releaseId := releaseId }

/-- earningsQuerySchema.parse. -/
def parseEarningsQuery (args : JsonObject) : Except String AnalyticsQueryArgs := do
  let releaseId ← optionalString "releaseId" (getField args "releaseId")
  let trackId ← optionalString "trackId" (getField args "trackId")
  let startDate ← optionalString "startDate" (getField args "startDate")
  let endDate ← optionalString "endDate" (getField args "endDate")
  let dsp ← optionalDspEnum "dsp" (getField args "dsp")
  .ok { releaseId := releaseId, trackId := trackId, startDate := startDate,
        endDate := endDate, dsp := dsp }

/-- streamsQuerySchema.parse (the source repeats the same field list). -/
def parseStreamsQuery (args : JsonObject) : Except String AnalyticsQueryArgs := do
  let releaseId ← optionalString "releaseId" (getField args "releaseId")
  let trackId ← optionalString "trackId" (getField args "trackId")
  let startDate ← optionalString "startDate" (getField args "startDate")
  let endDate ← optionalString "endDate" (getField args "endDate")
  let dsp ← optionalDspEnum "dsp" (getField args "dsp")
  .ok { releaseId := releaseId, trackId := trackId, startDate := startDate,
        endDate := endDate, dsp := dsp }

/-- One element of the splits array: a nested z.object. -/
def parseSplitEntry : Json → Except String SplitEntry
  | .obj fields => do
    let collaboratorEmail ←
      requireEmail "collaboratorEmail" (getField fields "collaboratorEmail")
    let collaboratorName ←
      requireString "collaboratorName" (getField fields "collaboratorName")
    let percentage ← requirePercentage "percentage" (getField fields "percentage")
    let role ← requireString "role" (getField fields "role")
    .ok { collaboratorEmail := collaboratorEmail,
          collaboratorName := collaboratorName, percentage := percentage,
          role := role }
  | _ => .error "Expected object in splits"

/-- setSplitsSchema.parse. -/
def parseSetSplits (args : JsonObject) : Except String SetSplitsArgs := do
  let releaseId ← requireString "releaseId" (getField args "releaseId")
  match getField args "splits" with
  | some (.arr xs) => do
    let splits ← xs.mapM parseSplitEntry
    .ok { releaseId := releaseId, splits := splits }
  | some _ => .error "Expected array at splits"
  | none => .error "Required at splits"

/-- uploadArtworkSchema.parse. -/
def parseUploadArtwork (args : JsonObject) : Except String UploadArtworkArgs := do
  let releaseId ← requireString "releaseId" (getField args "releaseId")
  let imageUrl ← requireString "imageUrl" (getField args "imageUrl")
  .ok { releaseId := releaseId, imageUrl := imageUrl }

/-- generateArtworkSchema.parse. -/
def parseGenerateArtwork (args : JsonObject) :
    Except String GenerateArtworkArgs := do
  let releaseId ← requireString "releaseId" (getField args "releaseId")
  let prompt ← requireString "prompt" (getField args "prompt")
  .ok { releaseId := releaseId, prompt := prompt }

/-- generateMusicSchema.parse: the validated record is exactly the client
request type of SunoClient.generateMusic. -/
def parseGenerateMusic (args : JsonObject) :
    Except String Suno.GenerateMusicRequest := do
  let prompt ← requireString "prompt" (getField args "prompt")
  let style ← optionalString "style" (getField args "style")
  let instrumental ← optionalBool "instrumental" (getField args "instrumental")
  let lyrics ← optionalString "lyrics" (getField args "lyrics")
  let title ← optionalString "title" (getField args "title")
  .ok { prompt := prompt, style := style, instrumental := instrumental,
        lyrics := lyrics, title := title }

/-- releaseAiTrackSchema.parse. -/
def parseReleaseAiTrack (args : JsonObject) : Except String ReleaseAiTrackArgs := do
  let prompt ← requireString "prompt" (getField args "prompt")
  let artistName ← requireString "artistName" (getField args "artistName")
  let trackTitle ← requireString "trackTitle" (getField args "trackTitle")
  let releaseDate ← requireString "releaseDate" (getField args "releaseDate")
  let dsps ← optionalDsps (getField args "dsps")
  let instrumental ← optionalBool "instrumental" (getField args "instrumental")
  let lyrics ← optionalString "lyrics" (getField args "lyrics")
  let style ← optionalString "style" (getField args "style")
  let artworkPrompt ← optionalString "artworkPrompt" (getField args "artworkPrompt")
  .ok { prompt := prompt, artistName := artistName, trackTitle := trackTitle,
        releaseDate := releaseDate, dsps := dsps, instrumental := instrumental,
        lyrics := lyrics, style := style, artworkPrompt := artworkPrompt }

/-- getMyWalletSchema.parse. -/
def parseGetMyWallet (args : JsonObject) : Except String ArtistNameArgs := do
  let artistName ← requireString "artistName" (getField args "artistName")
  .ok { artistName := artistName }

/-- getMyBalanceSchema.parse. -/
def parseGetMyBalance (args : JsonObject) : Except String ArtistNameArgs := do
  let artistName ← requireString "artistName" (getField args "artistName")
  .ok { artistName := artistName }

/-- The validated arguments of one tool case of the CallToolRequest
handler switch, one constructor per case. The five listing tools
(get_artists, get_releases, get_account, get_stores, get_genres) take no
arguments and have no schema, so they carry nothing. -/
inductive ValidatedTool where
  | createArtist (v : CreateArtistArgs)
  | getArtists
  | uploadTrack (v : UploadTrackArgs)
  | createRelease (v : CreateReleaseArgs)
  | submitRelease (v : SubmitReleaseArgs)
  | getReleaseStatus (v : GetReleaseStatusArgs)
  | getReleases
  | getEarnings (v : AnalyticsQueryArgs)
  | getStreams (v : AnalyticsQueryArgs)
  | setSplits (v : SetSplitsArgs)
  | getAccount
  | getStores
  | getGenres
  | uploadArtwork (v : UploadArtworkArgs)
  | generateArtwork (v : GenerateArtworkArgs)
  | generateMusic (v : Suno.GenerateMusicRequest)
  | releaseAiTrack (v : ReleaseAiTrackArgs)
  | getMyWallet (v : ArtistNameArgs)
  | getMyBalance (v : ArtistNameArgs)
deriving DecidableEq, Repr

/-- Outcome of the validation stage of one tool invocation. -/
inductive ParseOutcome where
  | invalid (msg : String)
  | valid (v : ValidatedTool)
  | unknownTool
deriving DecidableEq, Repr

/-- Lift one schema parse into the validation outcome. -/
def liftParse {α : Type} (k : α → ValidatedTool) :
    Except String α → ParseOutcome
  | .error msg => .invalid msg
  | .ok v => .valid (k v)

/-- Validation stage of the CallToolRequest handler, case by case over the
tool name. In the source every schema-bearing case runs its
schema.parse(args) as the FIRST statement of the case (index.ts lines 636,
685, 730, 763, 793, 833, 862, 894, 989, 1011, 1036, 1100, 1323 and 1353),
so the validation of each case factors out in front of its body; the five
no-argument cases validate vacuously, and any other name falls to the
default case of the switch. -/
def toolParse (name : String) (args : JsonObject) : ParseOutcome :=
  match name with
  | "create_artist" => liftParse .createArtist (parseCreateArtist args)
  | "get_artists" => .valid .getArtists
  | "upload_track" => liftParse .uploadTrack (parseUploadTrack args)
  | "create_release" => liftParse .createRelease (parseCreateRelease args)
  | "submit_release" => liftParse .submitRelease (parseSubmitRelease args)
  | "get_release_status" =>
    liftParse .getReleaseStatus (parseGetReleaseStatus args)
  | "get_releases" => .valid .getReleases
  | "get_earnings" => liftParse .getEarnings (parseEarningsQuery args)
  | "get_streams" => liftParse .getStreams (parseStreamsQuery args)
  | "set_splits" => liftParse .setSplits (parseSetSplits args)
  | "get_account" => .valid .getAccount
  | "get_stores" => .valid .getStores
  | "get_genres" => .valid .getGenres
  | "upload_artwork" => liftParse .uploadArtwork (parseUploadArtwork args)
  | "generate_artwork" => liftParse .generateArtwork (parseGenerateArtwork args)
  | "generate_music" => liftParse .generateMusic (parseGenerateMusic args)
  | "release_ai_track" => liftParse .releaseAiTrack (parseReleaseAiTrack args)
  | "get_my_wallet" => liftParse .getMyWallet (parseGetMyWallet args)
  | "get_my_balance" => liftParse .getMyBalance (parseGetMyBalance args)
  | _ => .unknownTool

/-- Shape of the tool result returned by one case of the CallToolRequest
handler: the ZodError branch of the surrounding catch, the configuration
guards of the release_ai_track case, the composite workflow result, or a
plain textual tool result. -/
inductive ToolOutcome where
  | validationError (msg : String)
  | sunoNotConfigured
  | dittoNotConfigured
  | workflow (r : WorkflowResult)
  | toolText (text : String) (isError : Bool)
deriving DecidableEq

/-- The bodies of the tool cases other than release_ai_track, given as
oracles over their validated arguments: each yields its tool result and
the list of external calls it issues. The dispatch theorem below holds for
EVERY choice of bodies, in particular for the real ones; only the
release_ai_track body is modelled concretely (runReleaseAiTrack), since
the other claims are about it. -/
structure ToolBodies where
  createArtist : CreateArtistArgs → ToolOutcome × List StepCall
  getArtists : ToolOutcome × List StepCall
  uploadTrack : UploadTrackArgs → ToolOutcome × List StepCall
  createRelease : CreateReleaseArgs → ToolOutcome × List StepCall
  submitRelease : SubmitReleaseArgs → ToolOutcome × List StepCall
  getReleaseStatus : GetReleaseStatusArgs → ToolOutcome × List StepCall
  getReleases : ToolOutcome × List StepCall
  getEarnings : AnalyticsQueryArgs → ToolOutcome × List StepCall
  getStreams : AnalyticsQueryArgs → ToolOutcome × List StepCall
  setSplits : SetSplitsArgs → ToolOutcome × List StepCall
  getAccount : ToolOutcome × List StepCall
  getStores : ToolOutcome × List StepCall
  getGenres : ToolOutcome × List StepCall
  uploadArtwork : UploadArtworkArgs → ToolOutcome × List StepCall
  generateArtwork : GenerateArtworkArgs → ToolOutcome × List StepCall
  generateMusic : Suno.GenerateMusicRequest → ToolOutcome × List StepCall
  getMyWallet : ArtistNameArgs → ToolOutcome × List StepCall
  getMyBalance : ArtistNameArgs → ToolOutcome × List StepCall

/-- Dispatch of a validated tool invocation to its case body. The
release_ai_track case is the concrete one: its configuration guards and
the composite workflow. -/
def runValidated (bodies : ToolBodies) (sunoConfigured dittoConfigured : Bool)
    (env : ReleaseEnv) : ValidatedTool → ToolOutcome × List StepCall
  | .createArtist v => bodies.createArtist v
  | .getArtists => bodies.getArtists
  | .uploadTrack v => bodies.uploadTrack v
  | .createRelease v => bodies.createRelease v
  | .submitRelease v => bodies.submitRelease v
  | .getReleaseStatus v => bodies.getReleaseStatus v
  | .getReleases => bodies.getReleases
  | .getEarnings v => bodies.getEarnings v
  | .getStreams v => bodies.getStreams v
  | .setSplits v => bodies.setSplits v
  | .getAccount => bodies.getAccount
  | .getStores => bodies.getStores
  | .getGenres => bodies.getGenres
  | .uploadArtwork v => bodies.uploadArtwork v
  | .generateArtwork v => bodies.generateArtwork v
  | .generateMusic v => bodies.generateMusic v
  | .releaseAiTrack v =>
    if sunoConfigured = false then (.sunoNotConfigured, [])
    else if dittoConfigured = false then (.dittoNotConfigured, [])
    else
      let r := runReleaseAiTrack v env
      (.workflow r.1, r.2)
  | .getMyWallet v => bodies.getMyWallet v
  | .getMyBalance v => bodies.getMyBalance v

/-- The CallToolRequest handler over one invocation: validate the raw
arguments for the named tool, and only on success run the case body; a
thrown ZodError is caught by the handler-wide catch (index.ts 1390-1398)
and becomes a validation-error tool result, with no call issued. The
default case of the switch reports the unknown tool. -/
def handleToolCall (name : String) (args : JsonObject) (bodies : ToolBodies)
    (sunoConfigured dittoConfigured : Bool) (env : ReleaseEnv) :
    ToolOutcome × List StepCall :=
  match toolParse name args with
  | .invalid msg => (.validationError ("Validation error: " ++ msg), [])
  | .unknownTool => (.toolText ("Unknown tool: " ++ name) true, [])
  | .valid v => runValidated bodies sunoConfigured dittoConfigured env v

end Release

/-!
Sample data for concrete instantiations.
-/

/-- A poll response reporting the backend failure status CREATE_TASK_FAILED. -/
def failedReport : Suno.GenerationDetails :=
  { taskId := "task-1", status := "CREATE_TASK_FAILED", tracks := none, error := none }

/-- A pending (in-progress) poll response. -/
def pendingReport : Suno.GenerationDetails :=
  { taskId := "task-1", status := "PENDING", tracks := none, error := none }

/-- A generated track with a usable audio URL. -/
def sampleTrack : Suno.SunoTrack :=
  { id := "trk-1", title := "Song", audioUrl := some "https://cdn.example/a.mp3",
    streamAudioUrl := none, imageUrl := none, duration := some 180, tags := none }

/-- A successful poll response carrying a usable track. -/
def successReport : Suno.GenerationDetails :=
  { taskId := "task-1", status := "SUCCESS", tracks := some [sampleTrack], error := none }

/-- A success-status poll response whose only track has an empty audio URL
and no streaming URL, hence no usable asset. -/
def emptySuccessReport : Suno.GenerationDetails :=
  { taskId := "task-1", status := "SUCCESS",
    tracks := some [{ id := "trk-1", title := "Song", audioUrl := some "",
                      streamAudioUrl := none, imageUrl := none, duration := none,
                      tags := none }],
    error := none }

/-- Sample generateMusic arguments with lyrics and the instrumental flag
raised at the same time. -/
def sampleLyricsParams : Suno.GenerateMusicRequest :=
  { prompt := "chill lo-fi beat", style := none, instrumental := some true,
    lyrics := some "la la la", title := none }

/-- A tool execution oracle that always succeeds. -/
def sampleApi : String → String → Except String String := fun _ _ => .ok "ok"

/-- Client history of one user message. -/
def sampleOrig : List Chat.Message := [⟨.user, .fromClient "make me a song"⟩]

/-- An engine response requesting one tool invocation. -/
def toolUseResp : Chat.EngineResponse :=
  ⟨"tool_use", [.toolUse "toolu_1" "get_artists" ""]⟩

/-- A second engine response requesting a different tool invocation. -/
def toolUseRespB : Chat.EngineResponse :=
  ⟨"tool_use", [.toolUse "toolu_2" "get_releases" ""]⟩

/-- An engine response carrying the final answer. -/
def finalResp : Chat.EngineResponse := ⟨"end_turn", [.text "done"]⟩

/-- The continuation request the loop builds from one engine response: the
original client history plus that response as an assistant turn plus its
tool results as a user turn. -/
def continuationOf (api : String → String → Except String String)
    (orig : List Chat.Message) (r : Chat.EngineResponse) : List Chat.Message :=
  orig ++ [⟨.assistant, .assistantBlocks r.content⟩,
           ⟨.user, .toolResults (Chat.toolResultsFor api r.content)⟩]

/-- A store lookup that resolves only spotify. -/
def sampleStoreLookup : String → Option String :=
  fun dsp => if dsp = "spotify" then some "store-1" else none

/-- A workflow environment in which every external call succeeds. The
artist list already contains Jane Doe with a different letter case than
the request below. -/
def baseEnv : Release.ReleaseEnv :=
  { generateMusicResult := .ok ⟨"task-1", "pending"⟩
    waitResult := .ok successReport
    artistsResult := .ok [⟨7, some "Jane Doe"⟩]
    createArtistResult := .ok ⟨9, some "jane doe"⟩
    cdpConfigured := false
    createWalletResult := .ok none
    createReleaseResult := .ok 42
    createTrackResult := .ok (some 5)
    generateArtworkResult := .ok ()
    storeLookup := sampleStoreLookup
    submitResult := .ok () }

/-- Validated workflow arguments: identity name jane doe (lower case),
one target platform, no artwork. -/
def sampleArgs : Release.ReleaseAiTrackArgs :=
  { prompt := "a catchy pop song", artistName := "jane doe", trackTitle := "First Light",
    releaseDate := "2026-01-01", dsps := some ["spotify"], instrumental := none,
    lyrics := none, style := none, artworkPrompt := none }

/-- The same arguments with an artwork prompt. -/
def artworkArgs : Release.ReleaseAiTrackArgs :=
  { sampleArgs with artworkPrompt := some "cool art" }

/-- Raw release_ai_track arguments that fail schema validation: the
required prompt field is missing. -/
def badRawArgs : Release.JsonObject :=
  [("artistName", .str "jane doe"), ("trackTitle", .str "First Light"),
   ("releaseDate", .str "2026-01-01")]

/-- Raw set_splits arguments that fail schema validation: the percentage
of the split entry exceeds 100. -/
def badSplitsArgs : Release.JsonObject :=
  [("releaseId", .str "42"),
   ("splits", .arr [.obj [("collaboratorEmail", .str "a@b.example"),
                          ("collaboratorName", .str "A"),
                          ("percentage", .num 150),
                          ("role", .str "writer")]])]

/-- Tool case bodies that answer every invocation with a fixed textual
result and one marker call, so a short-circuit failure (empty trace) is
distinguishable from a run body. -/
def sampleBodies : Release.ToolBodies :=
  { createArtist := fun v => (.toolText "ok" false, [.createArtist v.name])
    getArtists := (.toolText "ok" false, [.getArtists])
    uploadTrack := fun _ => (.toolText "ok" false, [.getArtists])
    createRelease := fun _ => (.toolText "ok" false, [.getArtists])
    submitRelease := fun _ => (.toolText "ok" false, [.getArtists])
    getReleaseStatus := fun _ => (.toolText "ok" false, [.getArtists])
    getReleases := (.toolText "ok" false, [.getArtists])
    getEarnings := fun _ => (.toolText "ok" false, [.getArtists])
    getStreams := fun _ => (.toolText "ok" false, [.getArtists])
    setSplits := fun _ => (.toolText "ok" false, [.getArtists])
    getAccount := (.toolText "ok" false, [.getArtists])
    getStores := (.toolText "ok" false, [.getArtists])
    getGenres := (.toolText "ok" false, [.getArtists])
    uploadArtwork := fun _ => (.toolText "ok" false, [.getArtists])
    generateArtwork := fun _ => (.toolText "ok" false, [.getArtists])
    generateMusic := fun _ => (.toolText "ok" false, [.getArtists])
    getMyWallet := fun _ => (.toolText "ok" false, [.getArtists])
    getMyBalance := fun _ => (.toolText "ok" false, [.getArtists]) }

/-!
Helper lemmas about the polling loop.
-/

/-- The only way an iteration body returns details is the SUCCESS branch
with a nonempty track list containing a truthy audio URL, and the returned
details are the reported ones. -/
lemma pollBody_ok_some (d0 d : Suno.GenerationDetails)
    (h : Suno.pollBody d0 = .ok (some d)) :
    d = d0 ∧ d0.status = "SUCCESS" ∧
      ∃ ts, d0.tracks = some ts ∧ 0 < ts.length ∧ Suno.hasValidAudio ts = true := by
  by_cases hs : d0.status = "SUCCESS"
  · cases hts : d0.tracks with
    | none => simp [Suno.pollBody, hs, hts] at h
    | some ts =>
      by_cases hl : ts.length > 0
      · by_cases hv : Suno.hasValidAudio ts = true
        · simp [Suno.pollBody, hs, hts, hl, hv] at h
          exact ⟨h.symm, hs, ts, rfl, hl, hv⟩
        · simp [Suno.pollBody, hs, hts, hl, hv] at h
      · simp [Suno.pollBody, hs, hts, hl] at h
  · simp only [Suno.pollBody, if_neg hs] at h
    split at h <;> simp_all

/-- C3 (code bug): a backend-reported failure status never aborts the
polling loop. The thrown failure lands in the catch of the same try block
with the consecutive-error counter freshly reset, so the run keeps polling:
a trace in which every poll reports CREATE_TASK_FAILED exhausts the whole
300 second deadline and ends in the timeout error, and after a single
failure report the loop simply polls again. The claimed behavior, a
JobFailed abort on the first failing poll, is unreachable. -/
theorem waitForCompletion_swallows_backend_failure :
    Suno.waitForCompletion (List.replicate 38 (.report failedReport)) 300000 8000
      = .timedOut 300000 ∧
    Suno.waitForCompletion [.report failedReport, .report pendingReport] 300000 8000
      = .outOfTrace := by
  constructor <;> rfl

/-- C4 (counterexample): with exactly 10 consecutive network-level poll
errors followed by a perfectly good success report, the loop escalates to
the hard tracker failure on the 10th error instead of swallowing it and
returning the success, contradicting the claim that the first 10 are
swallowed and only the 11th escalates. -/
theorem waitForCompletion_escalates_on_tenth_cex :
    Suno.waitForCompletion
        (List.replicate 10 (.netError "ECONNRESET") ++ [.report successReport])
        300000 8000
      = .tooManyErrors "Too many consecutive polling errors: ECONNRESET" := by
  rfl

/-- C4 (amended): with tolerance constant 10 the loop swallows the first 9
consecutive network-level poll errors and escalates to the hard tracker
failure exactly on the 10th consecutive error, because the counter is
incremented before the comparison maxConsecutiveErrors ≤ counter. -/
theorem waitForCompletion_error_tolerance (msg : String)
    (rest : List Suno.PollOutcome) :
    Suno.waitForCompletion (List.replicate 10 (.netError msg) ++ rest) 300000 8000
      = .tooManyErrors ("Too many consecutive polling errors: " ++ msg) ∧
    Suno.waitForCompletion (List.replicate 9 (.netError msg) ++ rest) 300000 8000
      = Suno.waitGo 300000 8000 rest 72000 9 := by
  constructor <;>
    simp [Suno.waitForCompletion, Suno.waitGo, List.replicate,
          Suno.maxConsecutiveErrors]

/-- C9: the polling loop never returns a completed result whose payload
lacks a usable asset. First part: every completed result carries status
SUCCESS and a nonempty track list with a truthy audio URL (primary or
streaming). Second part: a poll that reports SUCCESS without any usable
audio URL makes the loop poll again (with the error counter reset) instead
of returning. -/
theorem waitForCompletion_success_requires_usable_audio :
    (∀ (maxWaitMs pollIntervalMs : Nat) (outcomes : List Suno.PollOutcome)
       (elapsedMs consecutiveErrors : Nat) (d : Suno.GenerationDetails),
       Suno.waitGo maxWaitMs pollIntervalMs outcomes elapsedMs consecutiveErrors
         = .completed d →
       d.status = "SUCCESS" ∧
         ∃ ts, d.tracks = some ts ∧ 0 < ts.length ∧
           Suno.hasValidAudio ts = true) ∧
    (∀ (maxWaitMs pollIntervalMs : Nat) (d : Suno.GenerationDetails)
       (rest : List Suno.PollOutcome) (elapsedMs consecutiveErrors : Nat),
       elapsedMs < maxWaitMs → d.status = "SUCCESS" →
       (∀ ts, d.tracks = some ts → Suno.hasValidAudio ts = false) →
       Suno.waitGo maxWaitMs pollIntervalMs
           (.report d :: rest) elapsedMs consecutiveErrors
         = Suno.waitGo maxWaitMs pollIntervalMs rest
             (elapsedMs + pollIntervalMs) 0) := by
  constructor
  · intro maxWaitMs pollIntervalMs outcomes
    induction outcomes with
    | nil =>
      intro el c d h
      unfold Suno.waitGo at h
      split at h <;> simp_all
    | cons o rest ih =>
      intro el c d h
      cases o with
      | netError msg =>
        unfold Suno.waitGo at h
        split at h
        · split at h
          · simp_all
          · exact ih _ _ d h
        · simp_all
      | report det =>
        unfold Suno.waitGo at h
        split at h
        · cases hpb : Suno.pollBody det with
          | ok od =>
            cases od with
            | some d0 =>
              rw [hpb] at h
              have hd : d0 = d := by
                cases h
                rfl
              obtain ⟨he, hs, ts, hts, hl, hv⟩ := pollBody_ok_some det d0 hpb
              subst hd
              exact ⟨he ▸ hs, ts, he ▸ hts, hl, hv⟩
            | none =>
              rw [hpb] at h
              exact ih _ _ d h
          | error msg =>
            rw [hpb] at h
            simp only [Suno.maxConsecutiveErrors] at h
            norm_num at h
            exact ih _ _ d h
        · simp_all
  · intro maxWaitMs pollIntervalMs d rest el c h1 h2 h3
    have hpb : Suno.pollBody d = .ok none := by
      unfold Suno.pollBody
      rw [if_pos h2]
      cases htr : d.tracks with
      | none => rfl
      | some ts =>
        have hv := h3 ts htr
        by_cases hl : ts.length > 0
        · simp [hl, hv]
        · simp [hl]
    conv_lhs => unfold Suno.waitGo
    rw [if_pos h1, hpb]

/-- C9 witness: the general theorem applied to a concrete completed run
and to a concrete unusable success report. -/
theorem waitForCompletion_success_requires_usable_audio_witness :
    (successReport.status = "SUCCESS" ∧
      ∃ ts, successReport.tracks = some ts ∧ 0 < ts.length ∧
        Suno.hasValidAudio ts = true) ∧
    Suno.waitGo 300000 8000 [.report emptySuccessReport] 0 0
      = Suno.waitGo 300000 8000 [] 8000 0 := by
  constructor
  · exact waitForCompletion_success_requires_usable_audio.1 300000 8000
      [.report successReport] 0 0 successReport (by rfl)
  · exact waitForCompletion_success_requires_usable_audio.2 300000 8000
      emptySuccessReport [] 0 0 (by decide) (by rfl)
      (by intro ts hts; cases hts; rfl)

/-- C10: whenever the caller supplies (truthy) lyrics, the job body posted
to the generation backend is built in custom mode with instrumental
hardwired to false and the lyrics as the sung prompt, regardless of the
caller instrumental flag; without lyrics the caller prompt and
instrumental flag are used as given. -/
theorem generateMusic_lyrics_force_vocal (params : Suno.GenerateMusicRequest) :
    (jsTruthy params.lyrics = true →
      (Suno.generateMusicBody params).instrumental = false ∧
      (Suno.generateMusicBody params).prompt = params.lyrics.getD "" ∧
      (Suno.generateMusicBody params).customMode = true) ∧
    (jsTruthy params.lyrics = false →
      (Suno.generateMusicBody params).instrumental = params.instrumental.getD false ∧
      (Suno.generateMusicBody params).prompt = params.prompt ∧
      (Suno.generateMusicBody params).customMode = false) := by
  constructor <;> intro h <;> simp [Suno.generateMusicBody, h]

/-- C10 witness: concrete request with lyrics and instrumental true at the
same time; the posted body is vocal (instrumental false) and sings the
lyrics. -/
theorem generateMusic_lyrics_force_vocal_witness :
    jsTruthy sampleLyricsParams.lyrics = true ∧
    (Suno.generateMusicBody sampleLyricsParams).instrumental = false ∧
    (Suno.generateMusicBody sampleLyricsParams).prompt = "la la la" := by
  have h := (generateMusic_lyrics_force_vocal sampleLyricsParams).1 (by decide)
  exact ⟨by decide, h.1, h.2.1⟩


/-!
Chat loop claims.
-/

/-- Over a script of n identical tool_use responses the loop emits n more
requests, all equal to the single continuation request, and is still
waiting for the engine. -/
lemma chatGo_replicate (api : String → String → Except String String)
    (orig : List Chat.Message) (resp : Chat.EngineResponse)
    (h : resp.stopReason = "tool_use") :
    ∀ n, Chat.chatGo api orig resp (List.replicate n resp)
      = (List.replicate (n + 1) (continuationOf api orig resp), .awaitingEngine) := by
  intro n
  induction n with
  | zero =>
    unfold Chat.chatGo
    rw [if_pos h]
    rfl
  | succ k ih =>
    rw [List.replicate_succ]
    unfold Chat.chatGo
    rw [if_pos h]
    simp only [ih]
    rfl

/-- Appending a final (non tool_use) response after n tool_use responses
ends the loop with the final answer text. -/
lemma chatGo_replicate_final (api : String → String → Except String String)
    (orig : List Chat.Message) (resp final : Chat.EngineResponse)
    (h : resp.stopReason = "tool_use") (hf : ¬ final.stopReason = "tool_use") :
    ∀ n, (Chat.chatGo api orig resp (List.replicate n resp ++ [final])).2
      = .finalText (Chat.extractText final.content) := by
  intro n
  induction n with
  | zero =>
    unfold Chat.chatGo
    rw [if_pos h]
    simp only [List.replicate, List.nil_append]
    unfold Chat.chatGo
    rw [if_neg hf]
  | succ k ih =>
    rw [List.replicate_succ, List.cons_append]
    unfold Chat.chatGo
    rw [if_pos h]
    exact ih

/-- C1 (counterexample): an engine that requests tools 100 times in a row
never triggers any iteration-cap abort: after 100 tool round-trips the
loop has sent 101 engine requests and is simply waiting for the next
response, and with a final answer appended after those 100 round-trips the
handler completes normally. No IterationCapExceeded-style outcome exists
in the loop. -/
theorem chat_loop_no_iteration_cap_cex :
    (Chat.handlerRun sampleApi sampleOrig (List.replicate 100 toolUseResp)).2
      = .awaitingEngine ∧
    (Chat.handlerRun sampleApi sampleOrig (List.replicate 100 toolUseResp)).1.length
      = 101 ∧
    (Chat.handlerRun sampleApi sampleOrig
        (List.replicate 100 toolUseResp ++ [finalResp])).2
      = .finalText "done" := by
  refine ⟨rfl, rfl, rfl⟩

/-- C1 (amended): the orchestration loop of the chat handler has no
iteration cap. For every n, a script of n consecutive tool_use responses
makes the handler issue n + 1 engine requests and leaves it polling the
engine for yet another response with no error of any kind, and a non
tool_use response after those n round-trips ends the run with that final
answer. The loop exits only when the engine stops requesting tools; no
iteration count is ever checked. -/
theorem chat_loop_uncapped (api : String → String → Except String String)
    (orig : List Chat.Message) (resp final : Chat.EngineResponse) (n : Nat)
    (h : resp.stopReason = "tool_use") (hf : ¬ final.stopReason = "tool_use") :
    (Chat.handlerRun api orig (List.replicate n resp)).2 = .awaitingEngine ∧
    (Chat.handlerRun api orig (List.replicate n resp)).1.length = n + 1 ∧
    (Chat.handlerRun api orig (List.replicate n resp ++ [final])).2
      = .finalText (Chat.extractText final.content) := by
  refine ⟨?_, ?_, ?_⟩
  · cases n with
    | zero => rfl
    | succ k =>
      rw [List.replicate_succ]
      unfold Chat.handlerRun
      simp only [chatGo_replicate api orig resp h k]
  · cases n with
    | zero => rfl
    | succ k =>
      rw [List.replicate_succ]
      unfold Chat.handlerRun
      simp only [chatGo_replicate api orig resp h k]
      simp
  · cases n with
    | zero =>
      simp only [List.replicate, List.nil_append]
      unfold Chat.handlerRun Chat.chatGo
      simp [hf]
    | succ k =>
      rw [List.replicate_succ, List.cons_append]
      unfold Chat.handlerRun
      exact chatGo_replicate_final api orig resp final h hf k

/-- C1 witness: the amended theorem applied at three round-trips with
concrete responses. -/
theorem chat_loop_uncapped_witness :
    (Chat.handlerRun sampleApi sampleOrig (List.replicate 3 toolUseResp)).2
      = .awaitingEngine ∧
    (Chat.handlerRun sampleApi sampleOrig (List.replicate 3 toolUseResp)).1.length
      = 3 + 1 ∧
    (Chat.handlerRun sampleApi sampleOrig
        (List.replicate 3 toolUseResp ++ [finalResp])).2
      = .finalText (Chat.extractText finalResp.content) :=
  chat_loop_uncapped sampleApi sampleOrig toolUseResp finalResp 3
    (by rfl) (by decide)

/-- Every request the loop sends is the original history extended with
exactly one assistant/tool-result pair coming from a single tool_use
response of the script. -/
lemma chatGo_requests_shape (api : String → String → Except String String)
    (orig : List Chat.Message) :
    ∀ (rest : List Chat.EngineResponse) (r0 : Chat.EngineResponse)
      (req : List Chat.Message),
      req ∈ (Chat.chatGo api orig r0 rest).1 →
      (r0.stopReason = "tool_use" ∧ req = continuationOf api orig r0) ∨
      ∃ r ∈ rest, r.stopReason = "tool_use" ∧ req = continuationOf api orig r := by
  intro rest
  induction rest with
  | nil =>
    intro r0 req h
    unfold Chat.chatGo at h
    split at h
    · rename_i hstop
      simp only [List.mem_singleton] at h
      exact Or.inl ⟨hstop, h⟩
    · simp at h
  | cons r rs ih =>
    intro r0 req h
    unfold Chat.chatGo at h
    split at h
    · rename_i hstop
      simp only [List.mem_cons] at h
      rcases h with h1 | h2
      · exact Or.inl ⟨hstop, h1⟩
      · rcases ih r req h2 with ⟨hs, he⟩ | ⟨r2, hr2, hs, he⟩
        · exact Or.inr ⟨r, List.mem_cons_self r rs, hs, he⟩
        · exact Or.inr ⟨r2, List.mem_cons_of_mem r hr2, hs, he⟩
    · simp at h

/-- C2 (counterexample): two consecutive tool_use iterations followed by a
final answer. The claim requires the request of iteration 3 to contain the
assistant turn produced in iteration 1; in the code that request is built
from the ORIGINAL client messages plus only the iteration 2 pair, so the
iteration 1 assistant turn is absent from it, while the iteration 2
request did contain it. -/
theorem chat_conversation_not_append_only_cex :
    (Chat.handlerRun sampleApi sampleOrig [toolUseResp, toolUseRespB, finalResp]).1.length
      = 3 ∧
    Chat.Message.mk .assistant (.assistantBlocks toolUseResp.content) ∉
      (Chat.handlerRun sampleApi sampleOrig
        [toolUseResp, toolUseRespB, finalResp]).1.getD 2 [] ∧
    Chat.Message.mk .assistant (.assistantBlocks toolUseResp.content) ∈
      (Chat.handlerRun sampleApi sampleOrig
        [toolUseResp, toolUseRespB, finalResp]).1.getD 1 [] := by
  refine ⟨rfl, by decide, by decide⟩

/-- C2 (amended): within one handler run the conversation sent to the
engine is NOT extended cumulatively. Every request is either the original
client history or the original history plus exactly the immediately
preceding assistant turn and its tool-result turn; assistant and
tool-result turns of earlier iterations are dropped from later requests. -/
theorem chat_continuation_single_round_trip
    (api : String → String → Except String String) (orig : List Chat.Message)
    (responses : List Chat.EngineResponse) (req : List Chat.Message)
    (h : req ∈ (Chat.handlerRun api orig responses).1) :
    req = orig ∨
    ∃ r ∈ responses, r.stopReason = "tool_use" ∧
      req = continuationOf api orig r := by
  cases responses with
  | nil =>
    unfold Chat.handlerRun at h
    simp only [List.mem_singleton] at h
    exact Or.inl h
  | cons r rs =>
    unfold Chat.handlerRun at h
    simp only [List.mem_cons] at h
    rcases h with h1 | h2
    · exact Or.inl h1
    · rcases chatGo_requests_shape api orig rs r req h2 with ⟨hs, he⟩ | ⟨r2, hr2, hs, he⟩
      · exact Or.inr ⟨r, List.mem_cons_self r rs, hs, he⟩
      · exact Or.inr ⟨r2, List.mem_cons_of_mem r hr2, hs, he⟩

/-- C2 witness: the amended theorem applied to the second request of a
concrete run with two tool round-trips. -/
theorem chat_continuation_single_round_trip_witness :
    continuationOf sampleApi sampleOrig toolUseResp = sampleOrig ∨
    ∃ r ∈ [toolUseResp, toolUseRespB, finalResp], r.stopReason = "tool_use" ∧
      continuationOf sampleApi sampleOrig toolUseResp
        = continuationOf sampleApi sampleOrig r :=
  chat_continuation_single_round_trip sampleApi sampleOrig
    [toolUseResp, toolUseRespB, finalResp]
    (continuationOf sampleApi sampleOrig toolUseResp) (by decide)


/-!
Composite workflow claims.
-/

/-- The artwork/submission phase never issues an identity-creation call. -/
lemma finishRelease_no_createArtist (v : Release.ReleaseAiTrackArgs)
    (env : Release.ReleaseEnv) (artistId : Nat) (artistWallet : Option String)
    (releaseId : Nat) (trackId : Option Nat) (steps : List String)
    (calls : List Release.StepCall) (n : String)
    (h : Release.StepCall.createArtist n ∈
      (Release.finishRelease v env artistId artistWallet releaseId trackId steps calls).2) :
    Release.StepCall.createArtist n ∈ calls := by
  simp only [Release.finishRelease] at h
  repeat' split at h
  all_goals simp_all [List.mem_append]

/-- The artwork/submission phase never issues a container-creation call. -/
lemma finishRelease_no_createRelease (v : Release.ReleaseAiTrackArgs)
    (env : Release.ReleaseEnv) (artistId : Nat) (artistWallet : Option String)
    (releaseId : Nat) (trackId : Option Nat) (steps : List String)
    (calls : List Release.StepCall) (iri : String)
    (h : Release.StepCall.createRelease iri ∈
      (Release.finishRelease v env artistId artistWallet releaseId trackId steps calls).2) :
    Release.StepCall.createRelease iri ∈ calls := by
  simp only [Release.finishRelease] at h
  repeat' split at h
  all_goals simp_all [List.mem_append]

/-- From the release-creation step on, no identity-creation call is
issued. -/
lemma afterWallet_no_createArtist (v : Release.ReleaseAiTrackArgs)
    (env : Release.ReleaseEnv) (artistId : Nat) (artistWallet : Option String)
    (tr : Suno.SunoTrack) (steps : List String) (calls : List Release.StepCall)
    (n : String)
    (h : Release.StepCall.createArtist n ∈
      (Release.afterWallet v env artistId artistWallet tr steps calls).2) :
    Release.StepCall.createArtist n ∈ calls := by
  simp only [Release.afterWallet] at h
  repeat' split at h
  all_goals try (replace h := finishRelease_no_createArtist _ _ _ _ _ _ _ _ _ h)
  all_goals simp_all [List.mem_append]

/-- From the release-creation step on, every container-creation call
carries the IRI of the resolved artist id. -/
lemma afterWallet_createRelease (v : Release.ReleaseAiTrackArgs)
    (env : Release.ReleaseEnv) (artistId : Nat) (artistWallet : Option String)
    (tr : Suno.SunoTrack) (steps : List String) (calls : List Release.StepCall)
    (iri : String)
    (h : Release.StepCall.createRelease iri ∈
      (Release.afterWallet v env artistId artistWallet tr steps calls).2) :
    Release.StepCall.createRelease iri ∈ calls ∨
      iri = "/api/me/artists/" ++ toString artistId := by
  simp only [Release.afterWallet] at h
  repeat' split at h
  all_goals try (replace h := finishRelease_no_createRelease _ _ _ _ _ _ _ _ _ h)
  all_goals simp_all [List.mem_append]

/-- After the artist is resolved, the workflow issues no identity-creation
call. -/
lemma afterArtist_no_createArtist (v : Release.ReleaseAiTrackArgs)
    (env : Release.ReleaseEnv) (artistId : Nat) (tr : Suno.SunoTrack)
    (steps : List String) (calls : List Release.StepCall) (n : String)
    (h : Release.StepCall.createArtist n ∈
      (Release.afterArtist v env artistId tr steps calls).2) :
    Release.StepCall.createArtist n ∈ calls := by
  simp only [Release.afterArtist] at h
  repeat' split at h
  all_goals try (replace h := afterWallet_no_createArtist _ _ _ _ _ _ _ _ h)
  all_goals simp_all [List.mem_append]

/-- After the artist is resolved, every container-creation call in the
trace either was already issued or carries exactly the IRI of the resolved
artist id. -/
lemma afterArtist_createRelease (v : Release.ReleaseAiTrackArgs)
    (env : Release.ReleaseEnv) (artistId : Nat) (tr : Suno.SunoTrack)
    (steps : List String) (calls : List Release.StepCall) (iri : String)
    (h : Release.StepCall.createRelease iri ∈
      (Release.afterArtist v env artistId tr steps calls).2) :
    Release.StepCall.createRelease iri ∈ calls ∨
      iri = "/api/me/artists/" ++ toString artistId := by
  simp only [Release.afterArtist] at h
  repeat' split at h
  all_goals try (replace h := afterWallet_createRelease _ _ _ _ _ _ _ _ h)
  all_goals simp_all [List.mem_append]

/-- C7: identity resolution is case-insensitively idempotent. Whenever the
artist listing contains an artist whose name matches the requested name
case-insensitively, the workflow issues no identity-creation call at all,
and any container it creates is attached to the id of the FIRST such
existing artist (so reruns with the same name, in any letter case, reuse
the identity instead of duplicating it). -/
theorem release_identity_resolution_idempotent
    (v : Release.ReleaseAiTrackArgs) (env : Release.ReleaseEnv)
    (artists : List Release.Artist) (a : Release.Artist)
    (hartists : env.artistsResult = .ok artists)
    (hfind : artists.find? (fun x => Release.nameMatches x.name v.artistName) = some a) :
    (∀ n, Release.StepCall.createArtist n ∉ (Release.runReleaseAiTrack v env).2) ∧
    (∀ iri, Release.StepCall.createRelease iri ∈ (Release.runReleaseAiTrack v env).2 →
      iri = "/api/me/artists/" ++ toString a.id) := by
  constructor
  · intro n hmem
    simp only [Release.runReleaseAiTrack] at hmem
    split at hmem
    · simp_all
    · split at hmem
      · simp_all
      · split at hmem
        · simp_all
        · rw [hartists] at hmem
          simp only [] at hmem
          rw [hfind] at hmem
          have := afterArtist_no_createArtist _ _ _ _ _ _ _ hmem
          simp_all
  · intro iri hmem
    simp only [Release.runReleaseAiTrack] at hmem
    split at hmem
    · simp_all
    · split at hmem
      · simp_all
      · split at hmem
        · simp_all
        · rw [hartists] at hmem
          simp only [] at hmem
          rw [hfind] at hmem
          have := afterArtist_createRelease _ _ _ _ _ _ _ hmem
          simp_all

/-- C7 witness: with the listing containing Jane Doe and the request
naming jane doe, no identity-creation call appears in the trace and the
container creation uses artist id 7. -/
theorem release_identity_resolution_idempotent_witness :
    Release.StepCall.createArtist "jane doe" ∉
      (Release.runReleaseAiTrack sampleArgs baseEnv).2 ∧
    "/api/me/artists/7" = "/api/me/artists/" ++ toString (7 : Nat) :=
  ⟨(release_identity_resolution_idempotent sampleArgs baseEnv
      [⟨7, some "Jane Doe"⟩] ⟨7, some "Jane Doe"⟩ rfl (by decide)).1 "jane doe",
   (release_identity_resolution_idempotent sampleArgs baseEnv
      [⟨7, some "Jane Doe"⟩] ⟨7, some "Jane Doe"⟩ rfl (by decide)).2
      "/api/me/artists/7" (by decide)⟩

/-- C5 (counterexample): a run in which every step up to and including
media attachment succeeds, the submission call is issued, and the platform
submission throws. The workflow reports success false with the submission
error, not a partial success. -/
theorem release_submission_failure_cex :
    (Release.runReleaseAiTrack sampleArgs
        { baseEnv with submitResult := .error "submit boom" }).1.success = false ∧
    (Release.runReleaseAiTrack sampleArgs
        { baseEnv with submitResult := .error "submit boom" }).1.error
      = some "submit boom" ∧
    Release.StepCall.submitToStores "42" ["store-1"] ∈
      (Release.runReleaseAiTrack sampleArgs
        { baseEnv with submitResult := .error "submit boom" }).2 := by
  refine ⟨rfl, rfl, by decide⟩

/-- C5 (amended): platform submission failure is fatal to the workflow
result. Unlike artwork generation, the submission call has no inner
try/catch, so a thrown submission error reaches the workflow-wide catch:
the overall result reports success false carrying the submission error,
even though every earlier step succeeded and the submission call was
issued. -/
theorem release_submission_failure_fatal
    (v : Release.ReleaseAiTrackArgs) (env : Release.ReleaseEnv)
    (task : Suno.GenerationTask) (sr : Suno.GenerationDetails)
    (tr : Suno.SunoTrack) (artists : List Release.Artist) (a : Release.Artist)
    (rid : Nat) (tid : Option Nat) (ds : List String) (msg : String)
    (hgen : env.generateMusicResult = .ok task)
    (hwait : env.waitResult = .ok sr)
    (htr : Release.firstTrack sr.tracks = some tr)
    (hartists : env.artistsResult = .ok artists)
    (hfind : artists.find? (fun x => Release.nameMatches x.name v.artistName) = some a)
    (hcdp : env.cdpConfigured = false)
    (hrel : env.createReleaseResult = .ok rid)
    (htrk : env.createTrackResult = .ok tid)
    (hart : jsTruthy v.artworkPrompt = false)
    (hdsps : v.dsps = some ds)
    (hlen : 0 < ds.length)
    (hstores : 0 < (Release.resolveStoreIds env.storeLookup ds).length)
    (hsub : env.submitResult = .error msg) :
    (Release.runReleaseAiTrack v env).1.success = false ∧
    (Release.runReleaseAiTrack v env).1.error = some msg ∧
    Release.StepCall.submitToStores (toString rid)
        (Release.resolveStoreIds env.storeLookup ds)
      ∈ (Release.runReleaseAiTrack v env).2 := by
  simp only [Release.runReleaseAiTrack, hgen, hwait, htr, hartists, hfind,
             Release.afterArtist, Release.afterWallet, hcdp, hrel, htrk,
             Release.finishRelease, hart, hdsps, hsub]
  simp [hlen, hstores, Release.catchResult]

/-- C5 witness: the amended theorem at the concrete failing-submission
environment. -/
theorem release_submission_failure_fatal_witness :
    (Release.runReleaseAiTrack sampleArgs
        { baseEnv with submitResult := .error "submit boom" }).1.success = false ∧
    (Release.runReleaseAiTrack sampleArgs
        { baseEnv with submitResult := .error "submit boom" }).1.error
      = some "submit boom" ∧
    Release.StepCall.submitToStores (toString (42 : Nat))
        (Release.resolveStoreIds
          ({ baseEnv with submitResult := .error "submit boom" } : Release.ReleaseEnv).storeLookup
          ["spotify"])
      ∈ (Release.runReleaseAiTrack sampleArgs
          { baseEnv with submitResult := .error "submit boom" }).2 :=
  release_submission_failure_fatal sampleArgs
    { baseEnv with submitResult := .error "submit boom" }
    ⟨"task-1", "pending"⟩ successReport sampleTrack
    [⟨7, some "Jane Doe"⟩] ⟨7, some "Jane Doe"⟩ 42 (some 5) ["spotify"]
    "submit boom" rfl rfl (by decide) rfl (by decide) rfl rfl rfl (by decide)
    rfl (by decide) (by decide) rfl

/-- C6 (counterexample): artwork attachment fails while every prior step
succeeds, but the later submission call also throws; the overall result
then reports success false, although the claim requires success true with
artwork marked failed whenever artwork fails and all prior steps
succeeded. -/
theorem release_artwork_policy_cex :
    (Release.runReleaseAiTrack artworkArgs
        { baseEnv with generateArtworkResult := .error "artgen down",
                       submitResult := .error "submit boom" }).1.success = false ∧
    "   ⚠️ Artwork generation failed: artgen down" ∈
      (Release.runReleaseAiTrack artworkArgs
        { baseEnv with generateArtworkResult := .error "artgen down",
                       submitResult := .error "submit boom" }).1.steps ∧
    Release.StepCall.createTrackWithAudio "42" (some "https://cdn.example/a.mp3") ∈
      (Release.runReleaseAiTrack artworkArgs
        { baseEnv with generateArtworkResult := .error "artgen down",
                       submitResult := .error "submit boom" }).2 := by
  refine ⟨rfl, by decide, by decide⟩

/-- C6 (amended): partial-failure policy of the composite workflow. If
artwork generation fails while every prior step succeeded and the
submission step does not throw (here: no platforms requested), the overall
result reports success true with the artwork failure explicitly recorded
in the steps. If media attachment (track creation) fails, the overall
result reports success false and no submission call is ever issued. -/
theorem release_partial_failure_policy :
    (∀ (v : Release.ReleaseAiTrackArgs) (env : Release.ReleaseEnv)
       (task : Suno.GenerationTask) (sr : Suno.GenerationDetails)
       (tr : Suno.SunoTrack) (artists : List Release.Artist) (a : Release.Artist)
       (rid : Nat) (tid : Option Nat) (amsg : String),
       env.generateMusicResult = .ok task →
       env.waitResult = .ok sr →
       Release.firstTrack sr.tracks = some tr →
       env.artistsResult = .ok artists →
       artists.find? (fun x => Release.nameMatches x.name v.artistName) = some a →
       env.cdpConfigured = false →
       env.createReleaseResult = .ok rid →
       env.createTrackResult = .ok tid →
       jsTruthy v.artworkPrompt = true →
       env.generateArtworkResult = .error amsg →
       v.dsps = none →
       (Release.runReleaseAiTrack v env).1.success = true ∧
       ("   ⚠️ Artwork generation failed: " ++ amsg)
         ∈ (Release.runReleaseAiTrack v env).1.steps ∧
       (Release.runReleaseAiTrack v env).1.error = none) ∧
    (∀ (v : Release.ReleaseAiTrackArgs) (env : Release.ReleaseEnv)
       (task : Suno.GenerationTask) (sr : Suno.GenerationDetails)
       (tr : Suno.SunoTrack) (artists : List Release.Artist) (a : Release.Artist)
       (tmsg : String) (rid : Nat),
       env.generateMusicResult = .ok task →
       env.waitResult = .ok sr →
       Release.firstTrack sr.tracks = some tr →
       env.artistsResult = .ok artists →
       artists.find? (fun x => Release.nameMatches x.name v.artistName) = some a →
       env.cdpConfigured = false →
       env.createReleaseResult = .ok rid →
       env.createTrackResult = .error tmsg →
       (Release.runReleaseAiTrack v env).1.success = false ∧
       (∀ rid2 ss, Release.StepCall.submitToStores rid2 ss
         ∉ (Release.runReleaseAiTrack v env).2)) := by
  constructor
  · intro v env task sr tr artists a rid tid amsg
      hgen hwait htr hartists hfind hcdp hrel htrk hart hga hdsps
    simp only [Release.runReleaseAiTrack, hgen, hwait, htr, hartists, hfind,
               Release.afterArtist, Release.afterWallet, hcdp, hrel, htrk,
               Release.finishRelease, hart, hga, hdsps]
    simp
  · intro v env task sr tr artists a tmsg rid
      hgen hwait htr hartists hfind hcdp hrel htrk
    simp only [Release.runReleaseAiTrack, hgen, hwait, htr, hartists, hfind,
               Release.afterArtist, Release.afterWallet, hcdp, hrel, htrk]
    simp [Release.catchResult]

/-- C6 witness: the policy theorem applied at concrete runs: artwork
failure with no platforms requested yields success true with the failure
marked; a failing track creation yields success false with no submission
call. -/
theorem release_partial_failure_policy_witness :
    ((Release.runReleaseAiTrack
        { artworkArgs with dsps := none }
        { baseEnv with generateArtworkResult := .error "artgen down" }).1.success = true ∧
     ("   ⚠️ Artwork generation failed: " ++ "artgen down") ∈
       (Release.runReleaseAiTrack
        { artworkArgs with dsps := none }
        { baseEnv with generateArtworkResult := .error "artgen down" }).1.steps ∧
     (Release.runReleaseAiTrack
        { artworkArgs with dsps := none }
        { baseEnv with generateArtworkResult := .error "artgen down" }).1.error = none) ∧
    ((Release.runReleaseAiTrack sampleArgs
        { baseEnv with createTrackResult := .error "upload failed" }).1.success = false ∧
     Release.StepCall.submitToStores "42" ["store-1"] ∉
       (Release.runReleaseAiTrack sampleArgs
        { baseEnv with createTrackResult := .error "upload failed" }).2) :=
  ⟨release_partial_failure_policy.1
      { artworkArgs with dsps := none }
      { baseEnv with generateArtworkResult := .error "artgen down" }
      ⟨"task-1", "pending"⟩ successReport sampleTrack
      [⟨7, some "Jane Doe"⟩] ⟨7, some "Jane Doe"⟩ 42 (some 5) "artgen down"
      rfl rfl (by decide) rfl (by decide) rfl rfl rfl (by decide) rfl rfl,
   ⟨(release_partial_failure_policy.2 sampleArgs
      { baseEnv with createTrackResult := .error "upload failed" }
      ⟨"task-1", "pending"⟩ successReport sampleTrack
      [⟨7, some "Jane Doe"⟩] ⟨7, some "Jane Doe"⟩ "upload failed" 42
      rfl rfl (by decide) rfl (by decide) rfl rfl rfl).1,
    (release_partial_failure_policy.2 sampleArgs
      { baseEnv with createTrackResult := .error "upload failed" }
      ⟨"task-1", "pending"⟩ successReport sampleTrack
      [⟨7, some "Jane Doe"⟩] ⟨7, some "Jane Doe"⟩ "upload failed" 42
      rfl rfl (by decide) rfl (by decide) rfl rfl rfl).2 "42" ["store-1"]⟩⟩

/-- C8: for every tool invocation of the CallToolRequest handler whose
raw arguments fail the schema validation of its case, the handler returns
the validation-error tool result and issues zero external calls: every
schema-bearing case runs its parse as the first statement, so the thrown
ZodError reaches the handler-wide catch before any backend client is
touched, whatever the tool and whatever its body would have done. -/
theorem tool_validation_short_circuit
    (name : String) (args : Release.JsonObject) (bodies : Release.ToolBodies)
    (su di : Bool) (env : Release.ReleaseEnv) (msg : String)
    (h : Release.toolParse name args = .invalid msg) :
    Release.handleToolCall name args bodies su di env
      = (.validationError ("Validation error: " ++ msg), []) := by
  unfold Release.handleToolCall
  rw [h]

/-- C8 witness: three concrete failing invocations of distinct tools
(missing required string, out-of-range split percentage, missing prompt),
each against a fully working environment: validation-error result and an
empty call trace every time. -/
theorem tool_validation_short_circuit_witness :
    Release.handleToolCall "create_artist" [] sampleBodies true true baseEnv
      = (.validationError ("Validation error: " ++ "Required at name"), []) ∧
    Release.handleToolCall "set_splits" badSplitsArgs sampleBodies true true baseEnv
      = (.validationError ("Validation error: " ++ "Out of range at percentage"), []) ∧
    Release.handleToolCall "release_ai_track" badRawArgs sampleBodies true true baseEnv
      = (.validationError ("Validation error: " ++ "Required at prompt"), []) :=
  ⟨tool_validation_short_circuit "create_artist" [] sampleBodies true true
      baseEnv "Required at name" rfl,
   tool_validation_short_circuit "set_splits" badSplitsArgs sampleBodies true true
      baseEnv "Out of range at percentage" rfl,
   tool_validation_short_circuit "release_ai_track" badRawArgs sampleBodies true true
      baseEnv "Required at prompt" rfl⟩

end MusicMCP

